import Mathlib

/-!
Shallow embedding of `uscensus/core.py`: the API-key check performed by
`CensusData.__init__`, the predicate encoders `query_predicate_string` and
`geo_predicate_string`, geography composition (`CensusData._geography_query`),
variable validation (`CensusData.validate_vars`), the query-string assembly of
`CensusData.get`, its per-column type coercion, and the catalog lookup of
`CountyBusinessPatterns.__init__`.

Python strings are Lean `String`s; `str.upper`, `int(...)` and the first field
of a `split("/")` are re-implemented structurally on `String.data` so that all
definitions compute.  Network and filesystem effects are cut at the point the
request URL is built: `get_query` returns the query string that
`CensusData.get` hands to `requests.get`, or the error raised before that call.
-/

namespace USCensus

/-- Source constant `API_KEY_LENGTH` (core.py line 13). -/
def API_KEY_LENGTH : Nat := 40

/-- Python `curses.ascii.isxdigit`: true exactly on 0-9, A-F, a-f. -/
def isxdigit (c : Char) : Bool :=
  c.isDigit || ('A' ≤ c && c ≤ 'F') || ('a' ≤ c && c ≤ 'f')

/-- Python `str.upper` on the ASCII names this library handles. -/
def pyUpper (s : String) : String := ⟨s.data.map Char.toUpper⟩

/-- Python `sep.join(parts)`. -/
def joinStr (sep : String) : List String → String
  | [] => ""
  | [x] => x
  | x :: y :: xs => x ++ sep ++ joinStr sep (y :: xs)

/-- Left-to-right concatenation of string fragments, as produced by the
repeated `out += fragment` pattern in the source. -/
def concat_strings : List String → String
  | [] => ""
  | x :: xs => x ++ concat_strings xs

/-- Python `int(...)` digit parsing, on the canonical decimal strings the
census API uses. -/
def digitsToNat (l : List Char) : Nat :=
  l.foldl (fun acc c => acc * 10 + (c.toNat - ('0').toNat)) 0

/-- Python `int(s)` on a canonical integer literal, optionally signed. -/
def pyInt (s : String) : Int :=
  match s.data with
  | '-' :: rest => - (digitsToNat rest : Int)
  | l => (digitsToNat l : Int)

/-- A Python scalar appearing in a predicate value list; `str(i)` is applied
to each element when fragments are built. -/
inductive Scalar
  | int (n : Int)
  | str (s : String)
deriving DecidableEq

/-- Python `str(...)` on a scalar. -/
def Scalar.toText : Scalar → String
  | .int n => toString n
  | .str s => s

/-- The input shapes distinguished by `_make_list`: an `int`, a `str`, a
sequence, or any other value. -/
inductive PredArg
  | int (n : Int)
  | str (s : String)
  | seq (xs : List Scalar)
  | other
deriving DecidableEq

/-- The ValueError message raised by `_make_list` on an unsupported value
(interpolation of the value is abstracted). -/
def make_list_err_msg : String := "Dont know how to make x a list"

/-- Source `_make_list` (core.py lines 45-55): a bare int or str becomes a
singleton list, a sequence becomes a list, anything else raises ValueError. -/
def make_list : PredArg → Except String (List Scalar)
  | .int n => .ok [.int n]
  | .str s => .ok [.str s]
  | .seq xs => .ok xs
  | .other => .error make_list_err_msg

/-- Source `query_predicate_string` (core.py lines 58-65) after `_make_list`
has produced a list: a non-empty list yields one repeated `&name=` segment per
element, an empty list yields the empty string. -/
def query_predicate_string (name : String) (arg : List Scalar) : String :=
  if arg.length > 0 then
    "&" ++ name ++ "=" ++ joinStr ("&" ++ name ++ "=") (arg.map Scalar.toText)
  else ""

/-- Source `query_predicate_string` on a raw argument, including the
`_make_list` normalization it performs first. -/
def query_predicate_arg (name : String) (arg : PredArg) : Except String String :=
  match make_list arg with
  | .error e => .error e
  | .ok xs => .ok (query_predicate_string name xs)

/-- Source `geo_predicate_string` (core.py lines 70-72). -/
def geo_predicate_string (name : String) (arg : List Scalar) : String :=
  name ++ ":" ++ joinStr "," (arg.map Scalar.toText)

/-- The two failure modes of the API-key check in `CensusData.__init__`. -/
inductive KeyFail
  | tooShort
  | invalidChars
deriving DecidableEq

/-- The API-key validation of `CensusData.__init__` (core.py lines 92-102): a
key longer than 40 characters is first truncated to its first 40 with a
warning (the returned Bool), a shorter key raises ValueError, and the
remaining key - after any truncation - must consist of hex digits only. -/
def init_key_check (key : List Char) : Except KeyFail (List Char × Bool) :=
  if key.length > API_KEY_LENGTH then
    if (key.take API_KEY_LENGTH).all isxdigit then .ok (key.take API_KEY_LENGTH, true)
    else .error .invalidChars
  else if key.length < API_KEY_LENGTH then .error .tooShort
  else if key.all isxdigit then .ok (key, false)
  else .error .invalidChars

/-- The ValueErrors raised by `CensusData.get` before its HTTP request: an
invalid variable or predicate name from `validate_vars` (carrying the
offending name and the full column list that the wrapped message prints), or
empty geography from `_geography_query`. -/
inductive GetError
  | invalidVariable (var : String) (choices : List String)
  | emptyGeography
deriving DecidableEq

/-- Source `CensusData.validate_vars` (core.py lines 219-226): walks the names
in order and raises on the first whose upper-cased form is not a column of
`vars_df`; the message lists every column. -/
def validate_vars (cols : List String) : List String → Except GetError Unit
  | [] => .ok ()
  | v :: rest =>
    if pyUpper v ∈ cols then validate_vars cols rest
    else .error (.invalidVariable v cols)

/-- Source `CensusData._geography_query` (core.py lines 110-135), after
`_make_list` on both arguments. -/
def geography_query (state county : List Scalar) : Except GetError String :=
  if county.length = 0 then
    if state.length = 0 then .error .emptyGeography
    else .ok ("&for=" ++ geo_predicate_string "state" state)
  else
    if state.length > 0 then
      .ok ("&for=" ++ geo_predicate_string "county" county ++
        ("&in=" ++ geo_predicate_string "state" state))
    else .ok ("&for=" ++ geo_predicate_string "county" county)

/-- Python `kwargs.pop("state", [])` on the ordered keyword mapping of `get`
(keys of a Python dict are unique). -/
def state_arg (kwargs : List (String × List Scalar)) : List Scalar :=
  ((kwargs.find? (fun p => p.1 == "state")).map Prod.snd).getD []

/-- Python `kwargs.pop("county", [])`. -/
def county_arg (kwargs : List (String × List Scalar)) : List Scalar :=
  ((kwargs.find? (fun p => p.1 == "county")).map Prod.snd).getD []

/-- The keyword arguments remaining after both pops, in mapping iteration
order; the residual loop in `get` skips `state` and `county` keys as well. -/
def non_geo (kwargs : List (String × List Scalar)) : List (String × List Scalar) :=
  kwargs.filter (fun p => p.1 != "state" && p.1 != "county")

/-- The predicate fragments appended by the final loop of `get` (core.py
lines 167-169), concatenated in mapping iteration order. -/
def preds_string (kwargs : List (String × List Scalar)) : String :=
  concat_strings ((non_geo kwargs).map (fun p => query_predicate_string p.1 p.2))

/-- Query assembly of `CensusData.get` (core.py lines 153-169), up to the URL
handed to `requests.get`: validate the variables, build `?get=...&key=...`,
pop the geography arguments, validate the remaining keyword names, append the
geography fragment and then one predicate fragment per remaining keyword.
`start_time` and `end_time` are accepted and never read, as in the source.
Every error here is raised before any network access happens. -/
def get_query (cols : List String) (key : String)
    (start_time end_time : Option String)
    (varNames : List String) (kwargs : List (String × List Scalar)) :
    Except GetError String :=
  match validate_vars cols varNames with
  | .error e => .error e
  | .ok _ =>
    match validate_vars cols ((non_geo kwargs).map Prod.fst) with
    | .error e => .error e
    | .ok _ =>
      match geography_query (state_arg kwargs) (county_arg kwargs) with
      | .error e => .error e
      | .ok geo =>
        .ok ("?get=" ++ joinStr "," varNames ++ "&key=" ++ key ++ geo ++
          preds_string kwargs)

/-- The declared `predicateType` of a column in `vars_df`: a dtype string, or
NaN (a float) when missing. -/
inductive DType
  | s (t : String)
  | nan
deriving DecidableEq

/-- pandas `astype(int)` on a column of decimal strings. -/
def astype_int (vals : List String) : List Int := vals.map pyInt

/-- A result column after the coercion loop: parsed integers, the untouched
original strings, or a cast to some other dtype (kept symbolic). -/
inductive Column
  | ints (xs : List Int)
  | strs (xs : List String)
  | casted (dtype : String) (vals : List String)
deriving DecidableEq

/-- pandas `astype(dtype_str)`: an integer dtype parses the strings, any other
dtype is kept symbolic. -/
def astype (dtype : String) (vals : List String) : Column :=
  if dtype = "int" then .ints (astype_int vals) else .casted dtype vals

/-- One iteration of the coercion loop of `CensusData.get` (core.py lines
180-194) for column `k`: `state` and `county` are `astype(int)`
unconditionally; otherwise the declared `predicateType` decides - the string
"string" and NaN leave the column untouched, any other dtype string is used to
cast it. -/
def coerce_column (dtypeOf : String → DType) (k : String) (vals : List String) :
    Column :=
  if k = "state" || k = "county" then .ints (astype_int vals)
  else
    match dtypeOf k with
    | .s t => if t = "string" then .strs vals else astype t vals
    | .nan => .strs vals

/-- One row of the catalog `_DATA` after `c_dataset` has been joined with
"/" (core.py lines 37-38). -/
structure CatalogEntry where
  c_dataset : String
  temporal : String
deriving DecidableEq

/-- pandas `.str.split("/").str.get(0)` on a temporal string: the prefix
before the first slash. -/
def temporal_first (t : String) : String := ⟨t.data.takeWhile (fun c => c != '/')⟩

/-- `.astype(int)` of the first temporal field (core.py lines 242-244). -/
def temporal_year (t : String) : Int := pyInt (temporal_first t)

/-- The editions of all catalog entries of the `cbp` dataset family (core.py
lines 242-244). -/
def family_years (catalog : List CatalogEntry) : List Int :=
  (catalog.filter (fun e => e.c_dataset == "cbp")).map
    (fun e => temporal_year e.temporal)

/-- pandas `.min()` over a series, nonempty case. -/
def list_min (l : List Int) : Int :=
  match l with
  | [] => 0
  | x :: xs => xs.foldl min x

/-- pandas `.max()` over a series, nonempty case. -/
def list_max (l : List Int) : Int :=
  match l with
  | [] => 0
  | x :: xs => xs.foldl max x

/-- Catalog resolution of `CountyBusinessPatterns.__init__` (core.py lines
236-248): keep the entries whose dataset is "cbp" and whose temporal coverage
is exactly "year/year"; if none match, raise ValueError whose message reports
the min and max of the editions found across the whole cbp family. -/
def cbp_resolve (catalog : List CatalogEntry) (year : Int) :
    Except (Int × Int) (List CatalogEntry) :=
  let temporal := toString year ++ "/" ++ toString year
  let meta := catalog.filter (fun e => e.c_dataset == "cbp" && e.temporal == temporal)
  if meta.length = 0 then
    .error (list_min (family_years catalog), list_max (family_years catalog))
  else .ok meta

/-- A 40-character hex key. -/
def key_a40 : List Char := List.replicate 40 'a'

/-- A 41-character key whose only non-hex character sits past position 40. -/
def key_a40g : List Char := key_a40 ++ ['g']

/-- A 39-character key. -/
def key_39 : List Char := List.replicate 39 'a'

/-- A 40-character key containing a non-hex character. -/
def key_g40 : List Char := List.replicate 39 'a' ++ ['g']

/-- A variable-definition type map used by concrete witnesses. -/
def dt_example : String → DType :=
  fun c => if c = "ESTAB" then DType.s "int" else DType.nan

/-- A small concrete catalog used by concrete witnesses. -/
def catalog_example : List CatalogEntry :=
  [⟨"cbp", "2010/2010"⟩, ⟨"cbp", "2012/2012"⟩, ⟨"acs", "2011/2011"⟩]

/-- Prepending the separator to a nonempty `joinStr` is the concatenation of
separator-prefixed parts. -/
theorem sep_joinStr (sep : String) :
    ∀ (x : String) (xs : List String),
      sep ++ joinStr sep (x :: xs) =
        concat_strings ((x :: xs).map (fun y => sep ++ y)) := by
  intro x xs
  induction xs generalizing x with
  | nil => simp [joinStr, concat_strings, String.append_empty]
  | cons y ys ih =>
    show sep ++ (x ++ sep ++ joinStr sep (y :: ys)) =
      (sep ++ x) ++ concat_strings ((y :: ys).map (fun z => sep ++ z))
    rw [← ih y]
    simp [String.append_assoc]

/-- `query_predicate_string` is the concatenation of one `&name=` segment per
element, in order. -/
theorem query_predicate_string_eq (name : String) (xs : List Scalar) :
    query_predicate_string name xs =
      concat_strings (xs.map (fun x => "&" ++ name ++ "=" ++ Scalar.toText x)) := by
  cases xs with
  | nil => rfl
  | cons x l =>
    simp only [query_predicate_string]
    rw [if_pos (by simp : (x :: l).length > 0)]
    rw [List.map_cons, sep_joinStr, ← List.map_cons Scalar.toText x l, List.map_map]
    rfl

/-- `validate_vars` succeeds exactly when every upper-cased name is a column. -/
theorem validate_vars_ok_iff (cols : List String) (l : List String) :
    validate_vars cols l = .ok () ↔ ∀ v ∈ l, pyUpper v ∈ cols := by
  induction l with
  | nil => simp [validate_vars]
  | cons v rest ih =>
    by_cases h : pyUpper v ∈ cols
    · simp [validate_vars, h, ih]
    · simp [validate_vars, h]

/-- An error of `validate_vars` always names an offending input together with
the full column list. -/
theorem validate_vars_error_shape (cols : List String) (l : List String)
    (e : GetError) (h : validate_vars cols l = .error e) :
    ∃ v, e = .invalidVariable v cols ∧ pyUpper v ∉ cols := by
  induction l with
  | nil => simp [validate_vars] at h
  | cons v rest ih =>
    by_cases hv : pyUpper v ∈ cols
    · rw [validate_vars, if_pos hv] at h
      exact ih h
    · rw [validate_vars, if_neg hv] at h
      exact ⟨v, (Except.error.injEq _ _).mp h.symm, hv⟩

/-- If some name in the list is invalid, `validate_vars` errors with an
invalid-variable error. -/
theorem validate_vars_error_of_mem (cols : List String) (l : List String)
    (h : ∃ v ∈ l, pyUpper v ∉ cols) :
    ∃ v, validate_vars cols l = .error (.invalidVariable v cols) := by
  induction l with
  | nil => simp at h
  | cons w rest ih =>
    by_cases hw : pyUpper w ∈ cols
    · obtain ⟨v, hv, hnv⟩ := h
      rcases List.mem_cons.mp hv with rfl | hv
      · exact absurd hw hnv
      · obtain ⟨u, hu⟩ := ih ⟨v, hv, hnv⟩
        exact ⟨u, by rw [validate_vars, if_pos hw]; exact hu⟩
    · exact ⟨w, by rw [validate_vars, if_neg hw]⟩

/-- Folding `min` never exceeds the accumulator or any list element, and the
result is the accumulator or an element. -/
theorem foldl_min_spec (l : List Int) :
    ∀ a : Int, (l.foldl min a ≤ a ∧ ∀ y ∈ l, l.foldl min a ≤ y) ∧
      (l.foldl min a = a ∨ l.foldl min a ∈ l) := by
  induction l with
  | nil => intro a; simp
  | cons x xs ih =>
    intro a
    have h := ih (min a x)
    refine ⟨⟨le_trans h.1.1 (min_le_left a x), ?_⟩, ?_⟩
    · intro y hy
      rcases List.mem_cons.mp hy with rfl | hy
      · exact le_trans h.1.1 (min_le_right a y)
      · exact h.1.2 y hy
    · rcases h.2 with heq | hmem
      · rcases min_choice a x with hax | hax
        · exact Or.inl (heq.trans hax)
        · exact Or.inr (List.mem_cons.mpr (Or.inl (heq.trans hax)))
      · exact Or.inr (List.mem_cons.mpr (Or.inr hmem))

/-- Folding `max` bounds the accumulator and every list element from above,
and the result is the accumulator or an element. -/
theorem foldl_max_spec (l : List Int) :
    ∀ a : Int, (a ≤ l.foldl max a ∧ ∀ y ∈ l, y ≤ l.foldl max a) ∧
      (l.foldl max a = a ∨ l.foldl max a ∈ l) := by
  induction l with
  | nil => intro a; simp
  | cons x xs ih =>
    intro a
    have h := ih (max a x)
    refine ⟨⟨le_trans (le_max_left a x) h.1.1, ?_⟩, ?_⟩
    · intro y hy
      rcases List.mem_cons.mp hy with rfl | hy
      · exact le_trans (le_max_right a y) h.1.1
      · exact h.1.2 y hy
    · rcases h.2 with heq | hmem
      · rcases max_choice a x with hax | hax
        · exact Or.inl (heq.trans hax)
        · exact Or.inr (List.mem_cons.mpr (Or.inl (heq.trans hax)))
      · exact Or.inr (List.mem_cons.mpr (Or.inr hmem))

/-- `list_min` of a nonempty list is a member bounding the list below. -/
theorem list_min_spec (l : List Int) (h : l ≠ []) :
    list_min l ∈ l ∧ ∀ y ∈ l, list_min l ≤ y := by
  cases l with
  | nil => exact absurd rfl h
  | cons x xs =>
    have hs := foldl_min_spec xs x
    refine ⟨?_, ?_⟩
    · rcases hs.2 with heq | hmem
      · exact List.mem_cons.mpr (Or.inl heq)
      · exact List.mem_cons.mpr (Or.inr hmem)
    · intro y hy
      rcases List.mem_cons.mp hy with rfl | hy
      · exact hs.1.1
      · exact hs.1.2 y hy

/-- `list_max` of a nonempty list is a member bounding the list above. -/
theorem list_max_spec (l : List Int) (h : l ≠ []) :
    list_max l ∈ l ∧ ∀ y ∈ l, y ≤ list_max l := by
  cases l with
  | nil => exact absurd rfl h
  | cons x xs =>
    have hs := foldl_max_spec xs x
    refine ⟨?_, ?_⟩
    · rcases hs.2 with heq | hmem
      · exact List.mem_cons.mpr (Or.inl heq)
      · exact List.mem_cons.mpr (Or.inr hmem)
    · intro y hy
      rcases List.mem_cons.mp hy with rfl | hy
      · exact hs.1.1
      · exact hs.1.2 y hy

/-- Claim C1, counterexample: the key of 41 characters consisting of 40 hex
digits followed by the non-hex character g contains a non-hexadecimal
character, yet `CensusData.__init__` accepts it (truncating to the first 40
characters, with a warning) instead of failing fatally - truncation happens
before the hex check. -/
theorem C1_counterexample :
    (∃ c ∈ key_a40g, isxdigit c = false) ∧ key_a40g.length = 41 ∧
      init_key_check key_a40g = .ok (key_a40, true) :=
  ⟨by decide, by decide, rfl⟩

/-- Claim C1 (amended): a key shorter than 40 characters fails fatally; a key
longer than 40 characters is truncated to its first 40 characters with a
recoverable warning and accepted exactly when those 40 characters are all
hexadecimal; and a key whose first min(length, 40) characters contain a
non-hexadecimal character fails fatally - the hex check applies to the key
after truncation, so a non-hex character past position 40 is discarded. -/
theorem C1_theorem (key : List Char) :
    (key.length < 40 → init_key_check key = .error .tooShort) ∧
    (key.length > 40 → (key.take 40).all isxdigit = true →
      init_key_check key = .ok (key.take 40, true)) ∧
    (key.length > 40 → (key.take 40).all isxdigit = false →
      init_key_check key = .error .invalidChars) ∧
    (key.length = 40 → key.all isxdigit = true →
      init_key_check key = .ok (key, false)) ∧
    (key.length = 40 → key.all isxdigit = false →
      init_key_check key = .error .invalidChars) := by
  refine ⟨fun h => ?_, fun h hx => ?_, fun h hx => ?_, fun h hx => ?_, fun h hx => ?_⟩ <;>
    simp only [init_key_check, API_KEY_LENGTH]
  · rw [if_neg (by omega), if_pos h]
  · rw [if_pos h, if_pos hx]
  · rw [if_pos h, if_neg (by simp [hx])]
  · rw [if_neg (by omega), if_neg (by omega), if_pos hx]
  · rw [if_neg (by omega), if_neg (by omega), if_neg (by simp [hx])]

/-- Witness for C1_theorem at concrete keys: a 39-character key is rejected as
too short, the 41-character key with trailing non-hex g is truncated and
accepted with a warning, and a 40-character key containing g is rejected for
invalid characters. -/
theorem C1_theorem_witness :
    init_key_check key_39 = .error .tooShort ∧
    init_key_check key_a40g = .ok (key_a40, true) ∧
    init_key_check key_g40 = .error .invalidChars :=
  ⟨(C1_theorem key_39).1 (by decide),
   (C1_theorem key_a40g).2.1 (by decide) (by decide),
   (C1_theorem key_g40).2.2.2.2 (by decide) (by decide)⟩

/-- Claim C2: the geography fragment is `&for=county:<comma-joined counties>`
when the county list is non-empty, with `&in=state:<comma-joined states>`
appended exactly when the state list is also non-empty; it is
`&for=state:<comma-joined states>` when only the state list is non-empty; and
both lists empty is a validation error. -/
theorem C2_theorem (state county : List Scalar) :
    geography_query state county =
      (if county ≠ [] then
        Except.ok ("&for=county:" ++ joinStr "," (county.map Scalar.toText) ++
          (if state ≠ [] then
            "&in=state:" ++ joinStr "," (state.map Scalar.toText)
          else ""))
      else if state ≠ [] then
        Except.ok ("&for=state:" ++ joinStr "," (state.map Scalar.toText))
      else Except.error GetError.emptyGeography) := by
  cases county with
  | nil =>
    cases state with
    | nil => rfl
    | cons a s => rfl
  | cons b c =>
    cases state with
    | nil =>
      unfold geography_query
      rw [if_neg (by simp : ¬ (b :: c).length = 0),
        if_neg (by simp : ¬ ([] : List Scalar).length > 0),
        if_pos (by simp : (b :: c) ≠ ([] : List Scalar)),
        if_neg (by simp : ¬ ([] : List Scalar) ≠ ([] : List Scalar)),
        String.append_empty]
      rfl
    | cons a s =>
      unfold geography_query
      rw [if_neg (by simp : ¬ (b :: c).length = 0),
        if_pos (by simp : (a :: s).length > 0),
        if_pos (by simp : (b :: c) ≠ ([] : List Scalar)),
        if_pos (by simp : (a :: s) ≠ ([] : List Scalar))]
      rfl

/-- Claim C3: with variables NAME and POP, state 06 and a key, `get` builds
exactly the query `?get=NAME,POP&key=<key>&for=state:06`; and in general every
successfully built query is the get clause, then the key, then the geography
fragment, then one predicate fragment per remaining keyword in mapping
iteration order. -/
theorem C3_theorem (cols : List String) (key : String)
    (hN : "NAME" ∈ cols) (hP : "POP" ∈ cols) :
    get_query cols key none none ["NAME", "POP"] [("state", [Scalar.str "06"])] =
      .ok ("?get=NAME,POP&key=" ++ key ++ "&for=state:06") ∧
    (∀ st et vs kwargs q, get_query cols key st et vs kwargs = .ok q →
      ∃ geo, geography_query (state_arg kwargs) (county_arg kwargs) = .ok geo ∧
        q = "?get=" ++ joinStr "," vs ++ "&key=" ++ key ++ geo ++
          preds_string kwargs) := by
  constructor
  · have e1 : pyUpper "NAME" = "NAME" := by decide
    have e2 : pyUpper "POP" = "POP" := by decide
    have hval : validate_vars cols ["NAME", "POP"] = .ok () := by
      simp [validate_vars, e1, e2, hN, hP]
    have hgeo : geography_query (state_arg [("state", [Scalar.str "06"])])
        (county_arg [("state", [Scalar.str "06"])]) = .ok "&for=state:06" := rfl
    have hval2 : validate_vars cols
        ((non_geo [("state", [Scalar.str "06"])]).map Prod.fst) = .ok () := rfl
    have hpred : preds_string [("state", [Scalar.str "06"])] = "" := rfl
    simp only [get_query, hval, hval2, hgeo, hpred, String.append_empty]
    rfl
  · intro st et vs kwargs q hq
    rw [get_query] at hq
    cases h1 : validate_vars cols vs with
    | error e => rw [h1] at hq; exact absurd hq (by simp)
    | ok u =>
      rw [h1] at hq
      cases h2 : validate_vars cols ((non_geo kwargs).map Prod.fst) with
      | error e => rw [h2] at hq; exact absurd hq (by simp)
      | ok u2 =>
        rw [h2] at hq
        cases h3 : geography_query (state_arg kwargs) (county_arg kwargs) with
        | error e => rw [h3] at hq; exact absurd hq (by simp)
        | ok geo =>
          rw [h3] at hq
          simp only [Except.ok.injEq] at hq
          exact ⟨geo, rfl, hq.symm⟩

/-- Witness for C3_theorem at a concrete column set and key. -/
theorem C3_theorem_witness :
    get_query ["NAME", "POP"] "0123456789abcdef0123456789abcdef01234567" none none
      ["NAME", "POP"] [("state", [Scalar.str "06"])] =
      .ok ("?get=NAME,POP&key=" ++ "0123456789abcdef0123456789abcdef01234567" ++
        "&for=state:06") := by
  have h := C3_theorem ["NAME", "POP"] "0123456789abcdef0123456789abcdef01234567"
    (by decide) (by decide)
  exact h.1

/-- Claim C4: for every name, the predicate encoder yields the empty string on
an empty value list, and on any scalar-or-sequence value it yields exactly one
`&name=` segment per element, values stringified in their original order with
no deduplication or sorting; a value that is neither an int, a str, nor a
sequence is a ValueError. -/
theorem C4_theorem (name : String) (v : PredArg) :
    query_predicate_string name [] = "" ∧
    (∀ xs, make_list v = .ok xs →
      query_predicate_arg name v =
        .ok (concat_strings
          (xs.map (fun x => "&" ++ name ++ "=" ++ Scalar.toText x)))) ∧
    query_predicate_arg name PredArg.other = .error make_list_err_msg := by
  refine ⟨rfl, ?_, rfl⟩
  intro xs h
  simp only [query_predicate_arg, h, query_predicate_string_eq]

/-- Witness for C4_theorem on a concrete two-element integer sequence. -/
theorem C4_theorem_witness :
    query_predicate_arg "NAICS2007" (PredArg.seq [Scalar.int 23, Scalar.int 54]) =
      .ok (concat_strings ([Scalar.int 23, Scalar.int 54].map
        (fun x => "&" ++ "NAICS2007" ++ "=" ++ Scalar.toText x))) := by
  have h := C4_theorem "NAICS2007" (PredArg.seq [Scalar.int 23, Scalar.int 54])
  exact h.2.1 [Scalar.int 23, Scalar.int 54] rfl

/-- Claim C5: validate_vars is case-insensitive (with a declared column POP,
the inputs pop, POP and Pop are all accepted identically), rejects a name that
is not a declared column, and on the first invalid name fails immediately with
an error carrying that name and the full set of valid column names, no matter
what names follow. -/
theorem C5_theorem (cols : List String) (hpop : "POP" ∈ cols)
    (hnop : "POPULATION" ∉ cols) :
    validate_vars cols ["pop"] = .ok () ∧
    validate_vars cols ["POP"] = .ok () ∧
    validate_vars cols ["Pop"] = .ok () ∧
    validate_vars cols ["population"] =
      .error (.invalidVariable "population" cols) ∧
    (∀ pre v rest, (∀ p ∈ pre, pyUpper p ∈ cols) → pyUpper v ∉ cols →
      validate_vars cols (pre ++ v :: rest) =
        .error (.invalidVariable v cols)) := by
  have e1 : pyUpper "pop" = "POP" := by decide
  have e2 : pyUpper "POP" = "POP" := by decide
  have e3 : pyUpper "Pop" = "POP" := by decide
  have e4 : pyUpper "population" = "POPULATION" := by decide
  refine ⟨by simp [validate_vars, e1, hpop], by simp [validate_vars, e2, hpop],
    by simp [validate_vars, e3, hpop], by simp [validate_vars, e4, hnop], ?_⟩
  intro pre v rest hpre hv
  induction pre with
  | nil => simp [validate_vars, hv]
  | cons p ps ih =>
    have hp : pyUpper p ∈ cols := hpre p (List.mem_cons_self p ps)
    rw [List.cons_append, validate_vars, if_pos hp]
    exact ih (fun q hq => hpre q (List.mem_cons_of_mem p hq))

/-- Witness for C5_theorem with columns NAME and POP: pop is accepted, and a
list whose second entry is invalid fails on that entry with the full column
list, without the valid third entry being reached. -/
theorem C5_theorem_witness :
    validate_vars ["NAME", "POP"] ["pop"] = .ok () ∧
    validate_vars ["NAME", "POP"] ["name", "population", "pop"] =
      .error (.invalidVariable "population" ["NAME", "POP"]) := by
  have h := C5_theorem ["NAME", "POP"] (by decide) (by decide)
  exact ⟨h.1, h.2.2.2.2 ["name"] "population" ["pop"] (by decide) (by decide)⟩

/-- Claim C6: whenever some requested variable, or some keyword argument other
than state and county, does not name a valid column (case-insensitively),
`get` fails with a validation error while building the query - that is, before
the URL that would be handed to `requests.get` is ever produced, so no network
access occurs on the failing path. -/
theorem C6_theorem (cols : List String) (key : String) (st et : Option String)
    (vs : List String) (kwargs : List (String × List Scalar))
    (h : (∃ v ∈ vs, pyUpper v ∉ cols) ∨
      (∃ p ∈ non_geo kwargs, pyUpper p.1 ∉ cols)) :
    ∃ v, get_query cols key st et vs kwargs =
      .error (GetError.invalidVariable v cols) := by
  cases h1 : validate_vars cols vs with
  | error e =>
    obtain ⟨v, hv, _⟩ := validate_vars_error_shape cols vs e h1
    exact ⟨v, by rw [get_query, h1, hv]⟩
  | ok u =>
    cases u
    have hvs : ∀ v ∈ vs, pyUpper v ∈ cols := (validate_vars_ok_iff cols vs).mp h1
    have hk : ∃ p ∈ non_geo kwargs, pyUpper p.1 ∉ cols := by
      rcases h with ⟨v, hv, hnv⟩ | hk
      · exact absurd (hvs v hv) hnv
      · exact hk
    obtain ⟨p, hp, hnp⟩ := hk
    obtain ⟨v, hv⟩ := validate_vars_error_of_mem cols ((non_geo kwargs).map Prod.fst)
      ⟨p.1, List.mem_map_of_mem Prod.fst hp, hnp⟩
    exact ⟨v, by rw [get_query, h1, hv]⟩

/-- Witness for C6_theorem: requesting the unknown variable width against the
single column POP fails with an invalid-variable error and no query string is
built. -/
theorem C6_theorem_witness :
    ∃ v, get_query ["POP"] "k" none none ["width"]
      [("state", [Scalar.str "06"])] =
      .error (GetError.invalidVariable v ["POP"]) :=
  C6_theorem ["POP"] "k" none none ["width"] [("state", [Scalar.str "06"])]
    (Or.inl ⟨"width", by decide, by decide⟩)

/-- Claim C7: result columns named state or county are coerced to integer
whatever the variable-definition table declares; any other column whose
declared type is the string "string", or is missing (NaN), keeps its original
string values; and any other declared type string is used to cast the column -
in particular type "int" turns the values "1","2" into the integers 1,2. -/
theorem C7_theorem (dtypeOf : String → DType) (k : String) (vals : List String)
    (hk : k ≠ "state" ∧ k ≠ "county") :
    coerce_column dtypeOf "state" vals = .ints (astype_int vals) ∧
    coerce_column dtypeOf "county" vals = .ints (astype_int vals) ∧
    (dtypeOf k = .s "string" → coerce_column dtypeOf k vals = .strs vals) ∧
    (dtypeOf k = .nan → coerce_column dtypeOf k vals = .strs vals) ∧
    (∀ t, dtypeOf k = .s t → t ≠ "string" →
      coerce_column dtypeOf k vals = astype t vals) ∧
    (dtypeOf k = .s "int" →
      coerce_column dtypeOf k vals = .ints (astype_int vals)) ∧
    astype_int ["1", "2"] = [1, 2] := by
  have hcond : ¬ (k = "state" || k = "county") = true := by
    simp [hk.1, hk.2]
  refine ⟨rfl, rfl, ?_, ?_, ?_, ?_, by decide⟩
  · intro hd
    rw [coerce_column, if_neg hcond, hd]
    rfl
  · intro hd
    rw [coerce_column, if_neg hcond, hd]
  · intro t hd ht
    rw [coerce_column, if_neg hcond, hd]
    simp [ht]
  · intro hd
    rw [coerce_column, if_neg hcond, hd]
    rfl

/-- Witness for C7_theorem with a concrete table typing ESTAB as int: state
values are parsed as integers regardless of the table, and the declared int
type parses the column values. -/
theorem C7_theorem_witness :
    coerce_column dt_example "state" ["06", "07"] = .ints [6, 7] ∧
    coerce_column dt_example "ESTAB" ["1", "2"] = .ints [1, 2] := by
  refine ⟨?_, ?_⟩
  · exact ((C7_theorem dt_example "ESTAB" ["06", "07"] (by decide)).1).trans (by rfl)
  · exact ((C7_theorem dt_example "ESTAB" ["1", "2"]
      (by decide)).2.2.2.2.2.1 (by rfl)).trans (by rfl)

/-- Claim C8: when no catalog entry has dataset cbp and temporal coverage
year/year, construction of CountyBusinessPatterns fails, and the reported
range is exactly the min and max over the first year of every cbp catalog
entry: both bounds are family editions and they bound every family edition. -/
theorem C8_theorem (catalog : List CatalogEntry) (year : Int)
    (hmatch : ∀ e ∈ catalog,
      ¬(e.c_dataset = "cbp" ∧ e.temporal = toString year ++ "/" ++ toString year))
    (hfam : family_years catalog ≠ []) :
    ∃ lo hi, cbp_resolve catalog year = .error (lo, hi) ∧
      lo ∈ family_years catalog ∧ hi ∈ family_years catalog ∧
      ∀ y ∈ family_years catalog, lo ≤ y ∧ y ≤ hi := by
  have hfilter : catalog.filter
      (fun e => e.c_dataset == "cbp" &&
        e.temporal == toString year ++ "/" ++ toString year) = [] := by
    rw [List.filter_eq_nil_iff]
    intro e he
    have h := hmatch e he
    simp only [Bool.and_eq_true, beq_iff_eq]
    exact fun hc => h ⟨hc.1, hc.2⟩
  have hmin := list_min_spec (family_years catalog) hfam
  have hmax := list_max_spec (family_years catalog) hfam
  refine ⟨list_min (family_years catalog), list_max (family_years catalog),
    ?_, hmin.1, hmax.1, fun y hy => ⟨hmin.2 y hy, hmax.2 y hy⟩⟩
  simp only [cbp_resolve, hfilter, List.length_nil]
  rfl

/-- Witness for C8_theorem: a catalog holding cbp editions 2010 and 2012 (and
an unrelated acs entry) has no entry for 2011, so resolution fails and the
reported bounds are members of and bounds for the family editions. -/
theorem C8_theorem_witness :
    ∃ lo hi, cbp_resolve catalog_example 2011 = .error (lo, hi) ∧
      lo ∈ family_years catalog_example ∧ hi ∈ family_years catalog_example ∧
      ∀ y ∈ family_years catalog_example, lo ≤ y ∧ y ≤ hi :=
  C8_theorem catalog_example 2011 (by decide) (by decide)

/-- Claim C9: the query built by `get` does not depend on start_time or
end_time - two calls that differ only in those arguments build the same
request, because the base client accepts the parameters but never injects
them. -/
theorem C9_theorem (cols : List String) (key : String)
    (st1 et1 st2 et2 : Option String) (vs : List String)
    (kwargs : List (String × List Scalar)) :
    get_query cols key st1 et1 vs kwargs = get_query cols key st2 et2 vs kwargs :=
  rfl

/-- Claim C10, counterexample: with declared columns pop and POP, the stored
column pop contains a lowercase letter, yet its exact spelling is accepted by
validate_vars rather than rejected, because its upper-cased form happens to
match the other declared column. -/
theorem C10_counterexample :
    "pop" ∈ ["pop", "POP"] ∧ (∃ c ∈ ("pop" : String).data, c.isLower) ∧
    validate_vars ["pop", "POP"] ["pop"] = .ok () :=
  ⟨by decide, by decide, rfl⟩

/-- Claim C10 (amended): validate_vars accepts a name exactly when its
upper-cased form is literally among the column names; consequently, for every
declared column whose stored name contains a lowercase letter and whose
upper-cased form is not itself a declared column, every input spelling of that
name - the exact stored name included - is rejected. -/
theorem C10_theorem (cols : List String) (name : String) :
    (validate_vars cols [name] = .ok () ↔ pyUpper name ∈ cols) ∧
    (∀ col ∈ cols, (∃ c ∈ col.data, c.isLower) → pyUpper col ∉ cols →
      ∀ s, pyUpper s = pyUpper col →
        validate_vars cols [s] = .error (.invalidVariable s cols)) := by
  constructor
  · by_cases hmem : pyUpper name ∈ cols
    · simp [validate_vars, hmem]
    · simp [validate_vars, hmem]
  · intro col _ _ hup s hs
    have hsn : pyUpper s ∉ cols := hs ▸ hup
    simp [validate_vars, hsn]

/-- Witness for C10_theorem: with the single column pop, the exact stored
spelling pop is rejected, since its upper-cased form POP is not a column. -/
theorem C10_theorem_witness :
    validate_vars ["pop"] ["pop"] =
      .error (.invalidVariable "pop" ["pop"]) := by
  have h := C10_theorem ["pop"] "x"
  exact h.2 "pop" (by decide) (by decide) (by decide) "pop" rfl

end USCensus
